import Mathlib

/-!
Verification of the request-scoped SQLite connection manager in
`flaskr/db.py`: `get_db`, `close_db`, `init_db`, `init_db_command`,
the module-load `sqlite3.register_converter` call, and `init_app`.

The Python code is embedded shallowly.  Flask's per-request context
object `g` together with the process-level observation logs is the
state type `AppCtx`; the slot `g.db` is the field `gdb : Option Conn`.
Python object identity of connection handles is modelled by a `connId`
tag drawn from a fresh-id counter `nextId`: `sqlite3.connect` always
returns a brand-new object, so each successful open consumes a fresh
id.  Side effects on connections (`close`, `executescript`) are
recorded in observation logs.  Configuration (`current_app.config`,
the bundled resources of the application package, and whether the
configured database path can actually be opened) is the record
`Config`.  Exceptions are `Except DbError`.
-/

/-- Errors that the storage layer, resource loading or value parsing can
raise.  They model the Python exceptions (`sqlite3.OperationalError`,
`FileNotFoundError`, `UnicodeDecodeError`, `ValueError`). -/
inductive DbError where
  | openFailed
  | missingResource
  | decodeError
  | closeFailed
  | valueError
deriving Repr, DecidableEq

/-- Value of the constant `sqlite3.PARSE_DECLTYPES` passed by `get_db` as
the `detect_types` argument of `sqlite3.connect`. -/
def PARSE_DECLTYPES : Nat := 1

/-- Connection handle: models a `sqlite3.Connection` object.  `connId` is
the object identity tag (two handles are the same Python object iff their
ids coincide, by the freshness discipline of the allocator); `database`
is the filesystem path the connection was opened against; `detectTypes`
is the value of the `detect_types` mode; `rowFactoryIsRow` records
whether `row_factory` has been set to `sqlite3.Row`. -/
structure Conn where
  connId : Nat
  database : String
  detectTypes : Nat
  rowFactoryIsRow : Bool
deriving Repr, DecidableEq

/-- Per-request state: the Flask `g` slot for the key `'db'` plus the
process-level observations.  `nextId` is the fresh-id counter modelling
allocation of new Python objects; `closedIds` logs the ids of handles on
which `close()` was called; `scripts` logs every `executescript` call as
a pair of the handle id it ran on and the script text. -/
structure AppCtx where
  gdb : Option Conn
  nextId : Nat
  closedIds : List Nat
  scripts : List (Nat × String)
deriving Repr, DecidableEq

/-- Fresh request context: `g` holds no `'db'` key and nothing has been
observed yet. -/
def newAppCtx : AppCtx :=
  { gdb := none, nextId := 0, closedIds := [], scripts := [] }

/-- Application configuration and environment: `database` is
`current_app.config['DATABASE']`; `openOk` says whether opening that
path succeeds (false models e.g. a nonexistent parent directory);
`resources` maps bundled resource names (for `current_app.open_resource`)
to their raw bytes. -/
structure Config where
  database : String
  openOk : Bool
  resources : List (String × List Nat)

/-- Models `sqlite3.connect(path, detect_types=...)`: on success, a
brand-new connection object (fresh id, default `row_factory`), otherwise
the storage-open error propagates. -/
def sqlite3_connect (cfg : Config) (freshId : Nat) (detect : Nat) :
    Except DbError Conn :=
  if cfg.openOk then
    .ok { connId := freshId, database := cfg.database,
          detectTypes := detect, rowFactoryIsRow := false }
  else
    .error .openFailed

/-- Embedding of `get_db`: if `'db' not in g`, connect to
`current_app.config['DATABASE']` with `detect_types=sqlite3.PARSE_DECLTYPES`,
set `row_factory` to `sqlite3.Row`, store the handle in `g.db`; in every
case return `g.db`.  If the connect raises, the error propagates and no
assignment to `g` has happened. -/
def get_db (cfg : Config) (st : AppCtx) : Except DbError Conn × AppCtx :=
  match st.gdb with
  | some c => (.ok c, st)
  | none =>
    match sqlite3_connect cfg st.nextId PARSE_DECLTYPES with
    | .error e => (.error e, st)
    | .ok c0 =>
      let c := { c0 with rowFactoryIsRow := true }
      (.ok c, { st with gdb := some c, nextId := st.nextId + 1 })

/-- Embedding of `close_db(e=None)`: `db = g.pop('db', None)`, and if a
handle was present, `db.close()`.  Closing a `sqlite3.Connection` does
not raise, so the function is total; the teardown error argument `e` is
accepted and ignored. -/
def close_db (e : Option DbError) (st : AppCtx) : AppCtx :=
  match st.gdb with
  | none => { st with gdb := none }
  | some c => { st with gdb := none, closedIds := c.connId :: st.closedIds }

/-- Variant of `close_db` in which the underlying `db.close()` call is
allowed to fail (parameter `closeOk`), mirroring the statement order of
the source: the `g.pop` happens first, so the returned state has an
empty slot even when the close raises. -/
def close_db_tryClose (closeOk : Bool) (e : Option DbError) (st : AppCtx) :
    Except DbError Unit × AppCtx :=
  let db := st.gdb
  let st1 := { st with gdb := none }
  match db with
  | none => (.ok (), st1)
  | some c =>
    if closeOk then (.ok (), { st1 with closedIds := c.connId :: st1.closedIds })
    else (.error .closeFailed, st1)

/-- Decode a UTF-8 byte sequence into a list of characters, models
`bytes.decode('utf8')`.  Standard validating decoder: rejects stray
continuation bytes, overlong encodings, surrogate code points and code
points above U+10FFFF. -/
def utf8DecodeCore : List Nat → Option (List Char)
  | [] => some []
  | b :: rest =>
    if b < 0x80 then
      (utf8DecodeCore rest).map (fun cs => Char.ofNat b :: cs)
    else if b < 0xC2 then
      none
    else if b < 0xE0 then
      match rest with
      | b1 :: rest2 =>
        if 0x80 ≤ b1 ∧ b1 < 0xC0 then
          (utf8DecodeCore rest2).map
            (fun cs => Char.ofNat ((b - 0xC0) * 0x40 + (b1 - 0x80)) :: cs)
        else none
      | [] => none
    else if b < 0xF0 then
      match rest with
      | b1 :: b2 :: rest3 =>
        if 0x80 ≤ b1 ∧ b1 < 0xC0 ∧ 0x80 ≤ b2 ∧ b2 < 0xC0 then
          let cp := (b - 0xE0) * 0x1000 + (b1 - 0x80) * 0x40 + (b2 - 0x80)
          if 0x800 ≤ cp ∧ ¬ (0xD800 ≤ cp ∧ cp ≤ 0xDFFF) then
            (utf8DecodeCore rest3).map (fun cs => Char.ofNat cp :: cs)
          else none
        else none
      | _ => none
    else if b < 0xF5 then
      match rest with
      | b1 :: b2 :: b3 :: rest4 =>
        if 0x80 ≤ b1 ∧ b1 < 0xC0 ∧ 0x80 ≤ b2 ∧ b2 < 0xC0 ∧ 0x80 ≤ b3 ∧ b3 < 0xC0 then
          let cp := (b - 0xF0) * 0x40000 + (b1 - 0x80) * 0x1000 +
                    (b2 - 0x80) * 0x40 + (b3 - 0x80)
          if 0x10000 ≤ cp ∧ cp ≤ 0x10FFFF then
            (utf8DecodeCore rest4).map (fun cs => Char.ofNat cp :: cs)
          else none
        else none
      | _ => none
    else none

/-- Decode raw bytes as UTF-8 text; a malformed sequence raises the
decode error, as `bytes.decode('utf8')` does. -/
def utf8Decode (bs : List Nat) : Except DbError String :=
  match utf8DecodeCore bs with
  | some cs => .ok (String.mk cs)
  | none => .error .decodeError

/-- Structured date/time value, models `datetime.datetime`. -/
structure DateTime where
  year : Nat
  month : Nat
  day : Nat
  hour : Nat
  minute : Nat
  second : Nat
  microsecond : Nat
deriving Repr, DecidableEq

/-- Read one decimal digit. -/
def digitVal (c : Char) : Option Nat :=
  if c.isDigit then some (c.toNat - 48) else none

/-- Read exactly two decimal digits. -/
def parse2 : List Char → Option (Nat × List Char)
  | a :: b :: r =>
    match digitVal a, digitVal b with
    | some x, some y => some (x * 10 + y, r)
    | _, _ => none
  | _ => none

/-- Read exactly four decimal digits. -/
def parse4 : List Char → Option (Nat × List Char)
  | a :: b :: c :: d :: r =>
    match digitVal a, digitVal b, digitVal c, digitVal d with
    | some w, some x, some y, some z =>
      some (((w * 10 + x) * 10 + y) * 10 + z, r)
    | _, _, _, _ => none
  | _ => none

/-- Expect a given character. -/
def expectChar (c : Char) : List Char → Option (List Char)
  | x :: r => if x = c then some r else none
  | [] => none

/-- Read the fractional-second part: a dot followed by exactly three or
exactly six digits, yielding microseconds. -/
def parseFraction : List Char → Option (Nat × List Char)
  | '.' :: a :: b :: c :: d :: e :: f :: r =>
    match digitVal a, digitVal b, digitVal c, digitVal d, digitVal e, digitVal f with
    | some u, some v, some w, some x, some y, some z =>
      some (((((u * 10 + v) * 10 + w) * 10 + x) * 10 + y) * 10 + z, r)
    | _, _, _, _, _, _ => none
  | '.' :: a :: b :: c :: r =>
    match digitVal a, digitVal b, digitVal c with
    | some x, some y, some z => some ((x * 100 + y * 10 + z) * 1000, r)
    | _, _, _ => none
  | _ => none

/-- Models the external library call `datetime.fromisoformat` on the
formats emitted by `datetime.isoformat`: `YYYY-MM-DD`, optionally
followed by a single separator character and `HH:MM:SS`, optionally with
a 3- or 6-digit fractional part.  A string outside this shape raises the
value error. -/
def datetime_fromisoformat (s : String) : Except DbError DateTime :=
  match parse4 s.data with
  | none => .error .valueError
  | some (y, r1) =>
    match expectChar '-' r1 with
    | none => .error .valueError
    | some r2 =>
      match parse2 r2 with
      | none => .error .valueError
      | some (mo, r3) =>
        match expectChar '-' r3 with
        | none => .error .valueError
        | some r4 =>
          match parse2 r4 with
          | none => .error .valueError
          | some (d, r5) =>
            if ¬ (1 ≤ mo ∧ mo ≤ 12 ∧ 1 ≤ d ∧ d ≤ 31) then .error .valueError
            else
              match r5 with
              | [] => .ok ⟨y, mo, d, 0, 0, 0, 0⟩
              | _sep :: r6 =>
                match parse2 r6 with
                | none => .error .valueError
                | some (h, r7) =>
                  match expectChar ':' r7 with
                  | none => .error .valueError
                  | some r8 =>
                    match parse2 r8 with
                    | none => .error .valueError
                    | some (mi, r9) =>
                      match expectChar ':' r9 with
                      | none => .error .valueError
                      | some r10 =>
                        match parse2 r10 with
                        | none => .error .valueError
                        | some (sec, r11) =>
                          if ¬ (h ≤ 23 ∧ mi ≤ 59 ∧ sec ≤ 59) then .error .valueError
                          else
                            match r11 with
                            | [] => .ok ⟨y, mo, d, h, mi, sec, 0⟩
                            | _ =>
                              match parseFraction r11 with
                              | some (us, []) => .ok ⟨y, mo, d, h, mi, sec, us⟩
                              | _ => .error .valueError

/-- Models `current_app.open_resource(name)` followed by `f.read()`:
look the bundled resource up by name relative to the application's
resource root; a missing file raises. -/
def open_resource (cfg : Config) (name : String) : Except DbError (List Nat) :=
  match cfg.resources.lookup name with
  | some bs => .ok bs
  | none => .error .missingResource

/-- Models `db.executescript(text)`: run the whole text as a single
batch script on the given connection; observed as one log entry. -/
def executescript (c : Conn) (text : String) (st : AppCtx) : AppCtx :=
  { st with scripts := st.scripts ++ [(c.connId, text)] }

/-- Embedding of `init_db`: `db = get_db()`, open the bundled resource
`schema.sql`, decode its bytes as UTF-8 and run the decoded text with
`db.executescript`.  Every failure propagates unchanged; there is no
existence check on prior data and no rollback. -/
def init_db (cfg : Config) (st : AppCtx) : Except DbError Unit × AppCtx :=
  match get_db cfg st with
  | (.error e, st1) => (.error e, st1)
  | (.ok db, st1) =>
    match open_resource cfg "schema.sql" with
    | .error e => (.error e, st1)
    | .ok bs =>
      match utf8Decode bs with
      | .error e => (.error e, st1)
      | .ok text => (.ok (), executescript db text st1)

/-- Outcome of running a CLI command under the host command framework:
process exit code and the lines printed to standard output. -/
structure CmdResult where
  exitCode : Nat
  output : List String
deriving Repr, DecidableEq

/-- A registered CLI command: its invocation name and its action. -/
structure CliCommand where
  name : String
  run : Config → AppCtx → CmdResult × AppCtx

/-- Embedding of `init_db_command`, registered under the name `init-db`
by the `@click.command('init-db')` decorator: run `init_db()` then echo
the confirmation line.  A propagated error aborts the command before the
echo; the host framework maps the uncaught error to a non-zero exit
status. -/
def init_db_command : CliCommand where
  name := "init-db"
  run := fun cfg st =>
    match init_db cfg st with
    | (.ok _, st1) => (⟨0, ["Initialized the database."]⟩, st1)
    | (.error _, st1) => (⟨1, []⟩, st1)

/-- The converter the module registers for the declared type tag
`timestamp`: `lambda v: datetime.fromisoformat(v.decode())`. -/
def timestampConverter (v : List Nat) : Except DbError DateTime :=
  match utf8Decode v with
  | .error e => .error e
  | .ok s => datetime_fromisoformat s

/-- Process-wide converter registry as it stands after module load: the
single `sqlite3.register_converter("timestamp", ...)` call executed once
at import time. -/
def moduleConverters : List (String × (List Nat → Except DbError DateTime)) :=
  [("timestamp", timestampConverter)]

/-- Value produced by reading a column through the sqlite3 driver:
either the raw stored bytes or a converted structured date/time. -/
inductive SqlValue where
  | raw (bs : List Nat)
  | ts (d : DateTime)
deriving Repr, DecidableEq

/-- Models reading a stored value back through a connection: with
`detect_types = PARSE_DECLTYPES` the driver applies the registered
converter for the column's declared type tag to the raw bytes; without
it (or with no converter registered for the tag) the raw bytes come
back. -/
def readColumn (c : Conn) (declType : String) (bs : List Nat) :
    Except DbError SqlValue :=
  if c.detectTypes = PARSE_DECLTYPES then
    match moduleConverters.lookup declType with
    | some f =>
      match f bs with
      | .error e => .error e
      | .ok d => .ok (.ts d)
    | none => .ok (.raw bs)
  else
    .ok (.raw bs)

/-- The Flask application object, restricted to the two registration
surfaces `init_app` touches: the teardown hooks and the CLI commands. -/
structure App where
  teardownHooks : List (Option DbError → AppCtx → AppCtx)
  cliCommands : List CliCommand

/-- Embedding of `init_app(app)`: register `close_db` with
`app.teardown_appcontext` and add `init_db_command` to `app.cli`. -/
def init_app (app : App) : App :=
  { teardownHooks := app.teardownHooks ++ [close_db],
    cliCommands := app.cliCommands ++ [init_db_command] }

/-- Lifecycle operations a request handler can perform on the handle
slot of its context. -/
inductive DbOp where
  | acquire
  | release
deriving Repr, DecidableEq

/-- Abstract state of the handle slot of a request context. -/
inductive Slot where
  | EMPTY
  | OPEN
deriving Repr, DecidableEq

/-- Abstraction of a context to its slot state. -/
def slotOf (st : AppCtx) : Slot :=
  match st.gdb with
  | none => .EMPTY
  | some _ => .OPEN

/-- One lifecycle operation: `acquire` is `get_db` (result value
discarded, state kept), `release` is `close_db(None)`. -/
def stepOp (cfg : Config) (st : AppCtx) : DbOp → AppCtx
  | .acquire => (get_db cfg st).2
  | .release => close_db none st

/-- Run a sequence of lifecycle operations from a given context. -/
def runOps (cfg : Config) (st : AppCtx) : List DbOp → AppCtx
  | [] => st
  | op :: ops => runOps cfg (stepOp cfg st op) ops

/-- Repeated `get_db` with no intervening `close_db`: `acquireSeq cfg st n`
is the result and state of the (n+1)-st consecutive `get_db` call. -/
def acquireSeq (cfg : Config) (st : AppCtx) : Nat → Except DbError Conn × AppCtx
  | 0 => get_db cfg st
  | n + 1 => get_db cfg (acquireSeq cfg st n).2

/-- Well-formedness of a context: any handle sitting in the slot was
allocated before the current fresh-id counter.  It holds for a fresh
context and is preserved by every operation. -/
def WF (st : AppCtx) : Prop :=
  ∀ c, st.gdb = some c → c.connId < st.nextId

/-- The connection object produced by a successful first `get_db` in a
context: fresh id, configured path, declared-type detection on, row
factory set to `sqlite3.Row`. -/
def freshConn (cfg : Config) (st : AppCtx) : Conn :=
  { connId := st.nextId, database := cfg.database,
    detectTypes := PARSE_DECLTYPES, rowFactoryIsRow := true }

theorem get_db_cached (cfg : Config) (st : AppCtx) (c : Conn)
    (h : st.gdb = some c) : get_db cfg st = (.ok c, st) := by
  simp [get_db, h]

theorem get_db_empty_ok (cfg : Config) (st : AppCtx)
    (h : st.gdb = none) (hok : cfg.openOk = true) :
    get_db cfg st =
      (.ok (freshConn cfg st),
       { st with gdb := some (freshConn cfg st), nextId := st.nextId + 1 }) := by
  simp [get_db, h, sqlite3_connect, hok, freshConn]

theorem get_db_empty_fail (cfg : Config) (st : AppCtx)
    (h : st.gdb = none) (hok : cfg.openOk = false) :
    get_db cfg st = (.error .openFailed, st) := by
  simp [get_db, h, sqlite3_connect, hok]

theorem get_db_ok_slot {cfg : Config} {st st1 : AppCtx} {c : Conn}
    (h : get_db cfg st = (.ok c, st1)) : st1.gdb = some c := by
  cases hst : st.gdb with
  | some c0 =>
    rw [get_db_cached cfg st c0 hst] at h
    injection h with h1 h2
    injection h1 with h3
    subst h2
    subst h3
    exact hst
  | none =>
    cases hok : cfg.openOk with
    | true =>
      rw [get_db_empty_ok cfg st hst hok] at h
      injection h with h1 h2
      injection h1 with h3
      subst h2
      subst h3
      rfl
    | false =>
      rw [get_db_empty_fail cfg st hst hok] at h
      injection h with h1 h2
      exact Except.noConfusion h1

theorem get_db_ok_connId_lt {cfg : Config} {st st1 : AppCtx} {c : Conn}
    (hwf : WF st) (h : get_db cfg st = (.ok c, st1)) :
    c.connId < st1.nextId := by
  cases hst : st.gdb with
  | some c0 =>
    rw [get_db_cached cfg st c0 hst] at h
    injection h with h1 h2
    injection h1 with h3
    subst h2
    subst h3
    exact hwf c0 hst
  | none =>
    cases hok : cfg.openOk with
    | true =>
      rw [get_db_empty_ok cfg st hst hok] at h
      injection h with h1 h2
      injection h1 with h3
      subst h2
      subst h3
      simp [freshConn]
    | false =>
      rw [get_db_empty_fail cfg st hst hok] at h
      injection h with h1 h2
      exact Except.noConfusion h1

theorem close_db_gdb (e : Option DbError) (st : AppCtx) :
    (close_db e st).gdb = none := by
  cases hst : st.gdb <;> simp [close_db, hst]

theorem close_db_nextId (e : Option DbError) (st : AppCtx) :
    (close_db e st).nextId = st.nextId := by
  cases hst : st.gdb <;> simp [close_db, hst]

/-- Concrete configuration used by the witnesses: an openable database
path and a bundled `schema.sql` whose bytes are the ASCII text `DROP`. -/
def cfgOk : Config :=
  { database := "flaskr.sqlite", openOk := true,
    resources := [("schema.sql", [68, 82, 79, 80])] }

/-- Concrete configuration whose database path cannot be opened
(models a `DATABASE` value pointing into a nonexistent directory). -/
def cfgBad : Config :=
  { database := "no-such-dir/flaskr.sqlite", openOk := false, resources := [] }

/-- Concrete context holding an open handle, used by the witnesses. -/
def ctxOpen : AppCtx :=
  { gdb := some ⟨0, "flaskr.sqlite", PARSE_DECLTYPES, true⟩,
    nextId := 1, closedIds := [], scripts := [] }

/-- C1: within one request context, every `get_db` call of a sequence
with no intervening `close_db` returns the very same handle as the
first call and leaves the context state (in particular the `g.db` slot)
unchanged. -/
theorem c1_acquire_returns_identical_handle (cfg : Config) (st st1 : AppCtx)
    (c : Conn) (h : get_db cfg st = (.ok c, st1)) :
    ∀ n, acquireSeq cfg st n = (.ok c, st1) := by
  intro n
  induction n with
  | zero => simpa [acquireSeq] using h
  | succ n ih =>
    have hslot : st1.gdb = some c := get_db_ok_slot h
    simp [acquireSeq, ih, get_db_cached cfg st1 c hslot]

/-- Witness for C1 at a fresh context: the fourth consecutive call still
returns the handle opened by the first call, with the state unchanged. -/
theorem c1_witness :
    acquireSeq cfgOk newAppCtx 3 =
      (.ok ⟨0, "flaskr.sqlite", PARSE_DECLTYPES, true⟩,
       { gdb := some ⟨0, "flaskr.sqlite", PARSE_DECLTYPES, true⟩,
         nextId := 1, closedIds := [], scripts := [] }) :=
  c1_acquire_returns_identical_handle cfgOk newAppCtx
    { gdb := some ⟨0, "flaskr.sqlite", PARSE_DECLTYPES, true⟩,
      nextId := 1, closedIds := [], scripts := [] }
    ⟨0, "flaskr.sqlite", PARSE_DECLTYPES, true⟩ rfl 3

/-- C2: on the first `get_db` of a context (empty slot), a new
connection is opened against exactly the configured path, with
declared-type detection enabled and the row factory set to
`sqlite3.Row`, and that connection is stored in the `g.db` slot of the
resulting state and returned. -/
theorem c2_first_acquire_opens_configured (cfg : Config) (st : AppCtx)
    (hempty : st.gdb = none) (hok : cfg.openOk = true) :
    get_db cfg st =
      (.ok (freshConn cfg st),
       { st with gdb := some (freshConn cfg st), nextId := st.nextId + 1 }) ∧
    (freshConn cfg st).database = cfg.database ∧
    (freshConn cfg st).detectTypes = PARSE_DECLTYPES ∧
    (freshConn cfg st).rowFactoryIsRow = true :=
  ⟨get_db_empty_ok cfg st hempty hok, rfl, rfl, rfl⟩

/-- Witness for C2 at a fresh context and the concrete configuration. -/
theorem c2_witness :
    get_db cfgOk newAppCtx =
      (.ok (freshConn cfgOk newAppCtx),
       { newAppCtx with gdb := some (freshConn cfgOk newAppCtx),
                        nextId := newAppCtx.nextId + 1 }) ∧
    (freshConn cfgOk newAppCtx).database = cfgOk.database ∧
    (freshConn cfgOk newAppCtx).detectTypes = PARSE_DECLTYPES ∧
    (freshConn cfgOk newAppCtx).rowFactoryIsRow = true :=
  c2_first_acquire_opens_configured cfgOk newAppCtx rfl rfl

/-- C3: `close_db` always leaves the slot empty, closes the handle when
one is associated, ignores its error argument, is idempotent under
repetition, and is a no-op on a fresh context; being a total function
into `AppCtx`, it raises nothing. -/
theorem c3_release_idempotent (e e' : Option DbError) (st : AppCtx) :
    (close_db e st).gdb = none ∧
    (∀ c, st.gdb = some c →
      (close_db e st).closedIds = c.connId :: st.closedIds) ∧
    close_db e st = close_db e' st ∧
    close_db e (close_db e' st) = close_db e' st ∧
    close_db e newAppCtx = newAppCtx := by
  refine ⟨close_db_gdb e st, ?_, ?_, ?_, ?_⟩
  · intro c hc
    simp [close_db, hc]
  · cases hst : st.gdb <;> simp [close_db, hst]
  · cases st with
    | mk g n cl sc => cases g <;> simp [close_db]
  · rfl

/-- Witness for C3: releasing an open handle empties the slot and logs
the close; a second release changes nothing. -/
theorem c3_witness :
    (close_db none ctxOpen).gdb = none ∧
    (close_db none ctxOpen).closedIds = [0] ∧
    close_db none (close_db (some .openFailed) ctxOpen) =
      close_db (some .openFailed) ctxOpen :=
  ⟨(c3_release_idempotent none none ctxOpen).1,
   (c3_release_idempotent none none ctxOpen).2.1
     ⟨0, "flaskr.sqlite", PARSE_DECLTYPES, true⟩ rfl,
   (c3_release_idempotent none (some .openFailed) ctxOpen).2.2.2.1⟩

/-- C4: if `get_db` returned handle `c` in a well-formed context, then
`close_db` followed by another `get_db` in the same context (with the
configured path openable) returns a handle distinct by identity from
`c`. -/
theorem c4_release_then_acquire_distinct (cfg : Config) (st st1 : AppCtx)
    (c : Conn) (e : Option DbError) (hwf : WF st)
    (h : get_db cfg st = (.ok c, st1)) (hok : cfg.openOk = true) :
    ∃ c' st2, get_db cfg (close_db e st1) = (.ok c', st2) ∧
      st2.gdb = some c' ∧ c'.connId ≠ c.connId := by
  have hlt : c.connId < st1.nextId := get_db_ok_connId_lt hwf h
  have hempty : (close_db e st1).gdb = none := close_db_gdb e st1
  have hnext : (close_db e st1).nextId = st1.nextId := close_db_nextId e st1
  refine ⟨freshConn cfg (close_db e st1), _,
    get_db_empty_ok cfg (close_db e st1) hempty hok, rfl, ?_⟩
  simp only [freshConn, hnext]
  omega

/-- Witness for C4 at a fresh context and the concrete configuration. -/
theorem c4_witness :
    ∃ c' st2,
      get_db cfgOk
        (close_db none
          { gdb := some ⟨0, "flaskr.sqlite", PARSE_DECLTYPES, true⟩,
            nextId := 1, closedIds := [], scripts := [] }) = (.ok c', st2) ∧
      st2.gdb = some c' ∧
      c'.connId ≠ (Conn.mk 0 "flaskr.sqlite" PARSE_DECLTYPES true).connId :=
  c4_release_then_acquire_distinct cfgOk newAppCtx
    { gdb := some ⟨0, "flaskr.sqlite", PARSE_DECLTYPES, true⟩,
      nextId := 1, closedIds := [], scripts := [] }
    ⟨0, "flaskr.sqlite", PARSE_DECLTYPES, true⟩ none
    (by intro c hc; simp [newAppCtx] at hc) rfl rfl

/-- C5: `init_db` obtains its connection through `get_db`, decodes the
bundled `schema.sql` bytes as UTF-8, and runs the decoded text as one
`executescript` batch on that connection; it does so unconditionally,
for every prior state (no existence check) and with no rollback step. -/
theorem c5_init_db_runs_decoded_schema (cfg : Config) (st st1 : AppCtx)
    (c : Conn) (bs : List Nat) (text : String)
    (hget : get_db cfg st = (.ok c, st1))
    (hres : cfg.resources.lookup "schema.sql" = some bs)
    (hdec : utf8Decode bs = .ok text) :
    init_db cfg st =
      (.ok (), { st1 with scripts := st1.scripts ++ [(c.connId, text)] }) := by
  unfold init_db
  rw [hget]
  simp [open_resource, hres, hdec, executescript]

/-- Witness for C5: with the bundled bytes of the ASCII text `DROP`,
`init_db` on a fresh context executes exactly that decoded text on the
freshly opened connection. -/
theorem c5_witness :
    init_db cfgOk newAppCtx =
      (.ok (),
       { gdb := some ⟨0, "flaskr.sqlite", PARSE_DECLTYPES, true⟩,
         nextId := 1, closedIds := [], scripts := [(0, "DROP")] }) :=
  c5_init_db_runs_decoded_schema cfgOk newAppCtx
    { gdb := some ⟨0, "flaskr.sqlite", PARSE_DECLTYPES, true⟩,
      nextId := 1, closedIds := [], scripts := [] }
    ⟨0, "flaskr.sqlite", PARSE_DECLTYPES, true⟩ [68, 82, 79, 80] "DROP"
    rfl rfl rfl

/-- C6: the CLI command is registered under the name `init-db`; when
`init_db` succeeds it prints exactly the confirmation line and exits 0,
and when `init_db` raises it exits non-zero and prints no confirmation. -/
theorem c6_init_db_command_cli (cfg : Config) (st : AppCtx) :
    init_db_command.name = "init-db" ∧
    (∀ st1, init_db cfg st = (.ok (), st1) →
      init_db_command.run cfg st = (⟨0, ["Initialized the database."]⟩, st1)) ∧
    (∀ er st1, init_db cfg st = (.error er, st1) →
      (init_db_command.run cfg st).1.exitCode ≠ 0 ∧
      "Initialized the database." ∉ (init_db_command.run cfg st).1.output) := by
  refine ⟨rfl, ?_, ?_⟩
  · intro st1 h
    simp [init_db_command, h]
  · intro er st1 h
    simp [init_db_command, h]

/-- Witness for C6 on the failing configuration: opening the database
path raises, the command exits non-zero and prints no success line. -/
theorem c6_witness :
    (init_db_command.run cfgBad newAppCtx).1.exitCode ≠ 0 ∧
    "Initialized the database." ∉ (init_db_command.run cfgBad newAppCtx).1.output :=
  (c6_init_db_command_cli cfgBad newAppCtx).2.2 .openFailed newAppCtx rfl

/-- C7: through any connection with declared-type detection enabled (as
every connection opened by `get_db` is, cf. C2), a value stored under
the declared type tag `timestamp` as the UTF-8 bytes of a valid
ISO-8601 string `s` reads back as exactly the structured value obtained
by parsing `s` directly; and the module-load registry contains exactly
one registration, for the tag `timestamp`. -/
theorem c7_timestamp_roundtrip (c : Conn) (bs : List Nat) (s : String)
    (d : DateTime) (hc : c.detectTypes = PARSE_DECLTYPES)
    (hdec : utf8Decode bs = .ok s)
    (hparse : datetime_fromisoformat s = .ok d) :
    readColumn c "timestamp" bs = .ok (.ts d) ∧
    moduleConverters.map Prod.fst = ["timestamp"] := by
  refine ⟨?_, rfl⟩
  simp [readColumn, hc, moduleConverters, timestampConverter, hdec, hparse]

/-- Witness for C7 on the UTF-8 bytes of `2024-03-05 17:30:00`. -/
theorem c7_witness :
    readColumn ⟨0, "flaskr.sqlite", PARSE_DECLTYPES, true⟩ "timestamp"
        [50, 48, 50, 52, 45, 48, 51, 45, 48, 53, 32,
         49, 55, 58, 51, 48, 58, 48, 48] =
      .ok (.ts ⟨2024, 3, 5, 17, 30, 0, 0⟩) ∧
    moduleConverters.map Prod.fst = ["timestamp"] :=
  c7_timestamp_roundtrip ⟨0, "flaskr.sqlite", PARSE_DECLTYPES, true⟩
    [50, 48, 50, 52, 45, 48, 51, 45, 48, 53, 32,
     49, 55, 58, 51, 48, 58, 48, 48]
    "2024-03-05 17:30:00" ⟨2024, 3, 5, 17, 30, 0, 0⟩ rfl rfl rfl

/-- C8: the handle slot of a request context follows the two-state
machine — a fresh context is EMPTY; a first `get_db` (with the path
openable) moves EMPTY to OPEN; `get_db` keeps OPEN; `close_db` moves
any state to EMPTY; the `Option` slot holds at most one handle; and
`init_app` registers `close_db` as the teardown hook, whose unconditional
invocation ends every operation sequence in EMPTY. -/
theorem c8_handle_slot_state_machine (cfg : Config) (app : App)
    (e : Option DbError) :
    slotOf newAppCtx = .EMPTY ∧
    (∀ st : AppCtx, st.gdb = none → cfg.openOk = true →
      slotOf (stepOp cfg st .acquire) = .OPEN) ∧
    (∀ st : AppCtx, slotOf st = .OPEN → slotOf (stepOp cfg st .acquire) = .OPEN) ∧
    (∀ st : AppCtx, slotOf (stepOp cfg st .release) = .EMPTY) ∧
    (∀ (st : AppCtx) (c c' : Conn), st.gdb = some c → st.gdb = some c' → c = c') ∧
    close_db ∈ (init_app app).teardownHooks ∧
    (∀ (st : AppCtx) (ops : List DbOp),
      slotOf (close_db e (runOps cfg st ops)) = .EMPTY) := by
  refine ⟨rfl, ?_, ?_, ?_, ?_, ?_, ?_⟩
  · intro st h hok
    simp [stepOp, get_db_empty_ok cfg st h hok, slotOf]
  · intro st h
    cases hst : st.gdb with
    | none => simp [slotOf, hst] at h
    | some c => simp [stepOp, get_db_cached cfg st c hst, slotOf, hst]
  · intro st
    simp [stepOp, slotOf, close_db_gdb]
  · intro st c c' h h'
    rw [h] at h'
    injection h'
  · simp [init_app]
  · intro st ops
    simp [slotOf, close_db_gdb]

/-- Witness for C8: concrete transitions on a fresh context and an open
context, and a concrete operation sequence ending EMPTY after teardown. -/
theorem c8_witness :
    slotOf (stepOp cfgOk newAppCtx .acquire) = .OPEN ∧
    slotOf (stepOp cfgOk ctxOpen .acquire) = .OPEN ∧
    slotOf (close_db none
      (runOps cfgOk newAppCtx [.acquire, .acquire, .release, .acquire])) =
        .EMPTY :=
  ⟨(c8_handle_slot_state_machine cfgOk ⟨[], []⟩ none).2.1 newAppCtx rfl rfl,
   (c8_handle_slot_state_machine cfgOk ⟨[], []⟩ none).2.2.1 ctxOpen rfl,
   (c8_handle_slot_state_machine cfgOk ⟨[], []⟩ none).2.2.2.2.2.2 newAppCtx
     [.acquire, .acquire, .release, .acquire]⟩

/-- C9: the `g.pop` in `close_db` precedes the `close()` call, so even
in the variant where closing the handle fails, the resulting context
has no associated handle; when closing succeeds the variant agrees with
`close_db`. -/
theorem c9_pop_precedes_close (closeOk : Bool) (e : Option DbError)
    (st : AppCtx) :
    (close_db_tryClose closeOk e st).2.gdb = none ∧
    (∀ c, st.gdb = some c → closeOk = false →
      close_db_tryClose closeOk e st =
        (.error .closeFailed, { st with gdb := none })) ∧
    close_db_tryClose true e st = (.ok (), close_db e st) := by
  refine ⟨?_, ?_, ?_⟩
  · cases hst : st.gdb with
    | none => simp [close_db_tryClose, hst]
    | some c => cases closeOk <;> simp [close_db_tryClose, hst]
  · intro c hc hfalse
    subst hfalse
    simp [close_db_tryClose, hc]
  · cases hst : st.gdb <;> simp [close_db_tryClose, close_db, hst]

/-- Witness for C9: on an open context whose close fails, the error
propagates yet the slot is already empty. -/
theorem c9_witness :
    (close_db_tryClose false none ctxOpen).2.gdb = none ∧
    close_db_tryClose false none ctxOpen =
      (.error .closeFailed, { ctxOpen with gdb := none }) :=
  ⟨(c9_pop_precedes_close false none ctxOpen).1,
   (c9_pop_precedes_close false none ctxOpen).2.1
     ⟨0, "flaskr.sqlite", PARSE_DECLTYPES, true⟩ rfl rfl⟩

/-- C10: when the configured path cannot be opened, `get_db` on an empty
slot propagates the open error and returns the state unchanged (slot
still empty), and a later `get_db` on that same state with an openable
configuration opens a fresh connection rather than returning a cached
broken handle. -/
theorem c10_open_failure_slot_unchanged (cfg cfg2 : Config) (st : AppCtx)
    (hempty : st.gdb = none) (hfail : cfg.openOk = false)
    (hok2 : cfg2.openOk = true) :
    get_db cfg st = (.error .openFailed, st) ∧
    get_db cfg2 st =
      (.ok (freshConn cfg2 st),
       { st with gdb := some (freshConn cfg2 st), nextId := st.nextId + 1 }) :=
  ⟨get_db_empty_fail cfg st hempty hfail,
   get_db_empty_ok cfg2 st hempty hok2⟩

/-- Witness for C10 on the concrete failing and working configurations. -/
theorem c10_witness :
    get_db cfgBad newAppCtx = (.error .openFailed, newAppCtx) ∧
    get_db cfgOk newAppCtx =
      (.ok (freshConn cfgOk newAppCtx),
       { newAppCtx with gdb := some (freshConn cfgOk newAppCtx),
                        nextId := newAppCtx.nextId + 1 }) :=
  c10_open_failure_slot_unchanged cfgBad cfgOk newAppCtx rfl rfl rfl
